import Mathlib

/-!
Shallow embedding of the heating controller's mode orchestration
(`src/app/core/mode_manager.py`), its schedule application helpers
(`src/app/core/schedule_manager.py`), and the Home Assistant event client
(`src/app/services/ha_websocket.py`), together with theorems settling the
frozen claims about them.

Conventions of the embedding:
- Wall-clock instants and durations are integers (minutes).  `datetime.now()`
  becomes an explicit `now` parameter threaded to the functions that read it.
- Outbound device commands (`set_thermostat_mode`, the MQTT schedule publish,
  `set_input_select_option`) are recorded in an explicit trace; their
  success/failure (transport write, thermostat mapping, device-name
  validation, retries) is decided by an environment oracle `cmdOk`, since no
  claim depends on the internals of a single command's delivery.
- asyncio tasks created by the three `_schedule_*` helpers are modelled as a
  list of live (created, not yet cancelled, not yet completed) tasks with
  numeric handles; `self.timer_task` is the handle field.  `task.cancel()`
  removes the handled task from the live list.  A task body that runs
  computes its `datetime.now()` essentially at creation time under the
  cooperative scheduler, so the `delay > 0` check compares the captured
  restore time with the arming time.
-/

namespace HeatingController

/-- The system mode enum used by `mode_manager.py`'s dispatch (DEFAULT,
STAY_HOME, ECO, TIMER, VENTILATION, MANUAL, OFF).  Note: `state.py` names the
eco/holiday member `HOLIDAY` while `mode_manager.py` and `test_changes.py`
use `ECO`; that naming mismatch is modelled separately (see
`systemModeAttrs` / `set_mode_dispatch_literal`) and settled by claim C6.
Here the member is called `eco`, the name the mode manager dispatches on. -/
inductive SystemMode where
  | default
  | stay_home
  | eco
  | timer
  | manual
  | off
  | ventilation
deriving DecidableEq, Repr

/-- The literal `(attribute name, value)` member table of `SystemMode` as
defined in `src/app/models/state.py` lines 133-146: it has `HOLIDAY` and no
`ECO`. -/
def systemModeAttrs : List (String × String) :=
  [("DEFAULT", "default"), ("STAY_HOME", "stay_home"), ("HOLIDAY", "holiday"),
   ("TIMER", "timer"), ("MANUAL", "manual"), ("OFF", "off"),
   ("VENTILATION", "ventilation")]

/-- Python attribute access `SystemMode.<name>` on the enum of `state.py`:
`none` models the `AttributeError` raised for a missing member. -/
def enumGetattr (name : String) : Option String :=
  systemModeAttrs.lookup name

/-- One `elif mode == SystemMode.<attr>:` chain as written in
`ModeManager.set_mode` (mode_manager.py lines 163-185): each comparison first
evaluates the enum attribute; a missing member raises `AttributeError`
(modelled as `.error`).  `.ok s` names the applier the dispatch reaches (or
the unknown-mode fallthrough). -/
def dispatchChain (modeValue : String) : List (String × String) → Except String String
  | [] => .ok "unknown-mode-return-False"
  | (attr, applier) :: rest =>
    match enumGetattr attr with
    | none => .error ("AttributeError: " ++ attr)
    | some v => if modeValue = v then .ok applier else dispatchChain modeValue rest

/-- The dispatch of `set_mode` exactly as the source spells it, applied to the
requested mode's string value. -/
def set_mode_dispatch_literal (modeValue : String) : Except String String :=
  dispatchChain modeValue
    [("DEFAULT", "_apply_default_mode"),
     ("STAY_HOME", "_apply_stay_home_mode"),
     ("ECO", "_apply_eco_mode"),
     ("TIMER", "_apply_timer_mode"),
     ("VENTILATION", "_apply_ventilation_mode"),
     ("MANUAL", "_apply_manual_mode"),
     ("OFF", "_apply_off_mode")]

/-- A Home Assistant area as `area_manager.get_all_areas()` returns it
(`HAArea` in state.py): only the fields the mode manager reads. -/
structure HAArea where
  area_id : String
  thermostats : List String
  enabled : Bool
deriving DecidableEq, Repr

/-- One outbound device command.
`setHvac t m` is `ha_client.set_thermostat_mode(t, m)` (also reached through
`set_thermostat_hvac_mode` / `set_area_hvac_mode`).
`publishSchedule t tag` is the MQTT weekly-schedule publish to thermostat `t`
(`publish_schedule_to_thermostat` / `apply_schedule_to_thermostat`), where
`tag` names which week plan is pushed ("default", "eco", the stay-home
swapped week, or the untouched default week).
`selectOption e m` is `set_input_select_option(e, m)` used by
`_sync_mode_to_ha`. -/
inductive DeviceCommand where
  | setHvac (thermostat : String) (hvac_mode : String)
  | publishSchedule (thermostat : String) (tag : String)
  | selectOption (entity : String) (mode : SystemMode)
deriving DecidableEq, Repr

/-- The thermostat a command targets, if any (`selectOption` targets the
mode-persistence entity, not a thermostat). -/
def cmdThermostat : DeviceCommand → Option String
  | .setHvac th _ => some th
  | .publishSchedule th _ => some th
  | .selectOption _ _ => none

/-- The read-only collaborators of one orchestration cycle: the area
directory (`area_manager.get_all_areas()`), the schedule catalog
(`schedule_manager.schedules`, each id with its `enabled` flag), and the
success oracle for device commands. -/
structure Env where
  areas : List HAArea
  schedules : List (String × Bool)
  cmdOk : DeviceCommand → Bool

/-- `schedule_manager.get_schedule(sid)` truthiness: the schedule exists. -/
def get_schedule (env : Env) (sid : String) : Option Bool :=
  env.schedules.lookup sid

/-- The kind of deferred-restore task (which `_schedule_*` helper armed it). -/
inductive TimerKind where
  | ventilationRestore
  | stayHomeRestore
  | timerRestore
deriving DecidableEq, Repr

/-- One armed deferred-restore task: the closure captured by the coroutine. -/
structure TimerTask where
  kind : TimerKind
  restoreMode : SystemMode
  restoreTime : Int
  armTime : Int
deriving DecidableEq, Repr

/-- The mutable fields of `ModeManager` (plus `ha_client.system_state.system_mode`,
the shared cached mode it writes), and the task bookkeeping: `timer_task` is
the handle field, `live_tasks` the tasks created and neither cancelled nor
completed, `next_task_id` a fresh-handle counter. -/
structure MCState where
  current_mode : SystemMode
  previous_mode : SystemMode
  saved_mode : Option SystemMode
  timer_restore_time : Option Int
  timer_task : Option Nat
  live_tasks : List (Nat × TimerTask)
  next_task_id : Nat
  sys_state_mode : SystemMode
deriving DecidableEq, Repr

/-- `ModeManager.__init__`: current and previous mode start as MANUAL, no
task, and `SystemState().system_mode` defaults to MANUAL. -/
def initState : MCState :=
  { current_mode := .manual
    previous_mode := .manual
    saved_mode := none
    timer_restore_time := none
    timer_task := none
    live_tasks := []
    next_task_id := 0
    sys_state_mode := .manual }

/-- `if self.timer_task: self.timer_task.cancel()` — cancelling removes the
handled task from the live set (the handle itself is left as the source
leaves it; every caller overwrites it right after). -/
def cancelHandle (s : MCState) : MCState :=
  { s with live_tasks :=
      match s.timer_task with
      | none => s.live_tasks
      | some h => s.live_tasks.filter (fun p => p.1 ≠ h) }

/-- Install a freshly created task and store its handle in `timer_task`. -/
def installTask (s : MCState) (t : TimerTask) : MCState :=
  { s with timer_task := some s.next_task_id
           live_tasks := (s.next_task_id, t) :: s.live_tasks
           next_task_id := s.next_task_id + 1 }

/-- `ModeManager._schedule_ventilation_restore` (mode_manager.py 259-293):
cancel any existing timer, then create the restore-after-ventilation task. -/
def _schedule_ventilation_restore (s : MCState) (restore_time : Int)
    (restore_mode : SystemMode) (now : Int) : MCState :=
  installTask (cancelHandle s) ⟨.ventilationRestore, restore_mode, restore_time, now⟩

/-- `ModeManager._schedule_timer_restore` (mode_manager.py 501-522): cancel
any existing timer, then create the restore-to-default task. -/
def _schedule_timer_restore (s : MCState) (restore_time : Int) (now : Int) : MCState :=
  installTask (cancelHandle s) ⟨.timerRestore, .default, restore_time, now⟩

/-- `ModeManager._schedule_stay_home_restore` (mode_manager.py 474-499):
skip entirely when a task handle exists and the current mode is VENTILATION;
otherwise create the midnight restore-to-default task WITHOUT cancelling any
existing task (the source has no `cancel()` call here — the old task stays
live and only the handle is overwritten). -/
def _schedule_stay_home_restore (s : MCState) (restore_time : Int) (now : Int) : MCState :=
  if s.timer_task.isSome ∧ s.current_mode = .ventilation then s
  else installTask s ⟨.stayHomeRestore, .default, restore_time, now⟩

/-- The deduplicated union of every area's thermostats —
`all_thermostats = set(); for area in get_all_areas(): all_thermostats.update(area.thermostats)`.
Note there is NO `area.enabled` check on this collection path. -/
def allThermostats (env : Env) : List String :=
  ((env.areas.map (fun a => a.thermostats)).flatten).dedup

/-- `set_area_hvac_mode(area, hvac_mode)` (mode_manager.py 622-631): one
`setHvac` per thermostat of the area, result the conjunction (`True` when the
area has no thermostats). -/
def set_area_hvac_mode (env : Env) (area : HAArea) (hvac_mode : String) :
    Bool × List DeviceCommand :=
  let cmds := area.thermostats.map (fun t => DeviceCommand.setHvac t hvac_mode)
  (cmds.all env.cmdOk, cmds)

/-- `schedule_manager.apply_schedule_to_thermostat` (schedule_manager.py
95-203): fails with no command when the schedule is missing or disabled;
otherwise sets the thermostat to auto (failure only warned, does not affect
the result) and publishes the schedule week over MQTT (mapping lookup,
device-name validation and the bounded retries folded into the oracle's
verdict on the publish). -/
def apply_schedule_to_thermostat (env : Env) (th : String) (sid : String) :
    Bool × List DeviceCommand :=
  match get_schedule env sid with
  | none => (false, [])
  | some enabled =>
    if enabled then
      ((env.cmdOk (.publishSchedule th sid)),
       [DeviceCommand.setHvac th "auto", DeviceCommand.publishSchedule th sid])
    else (false, [])

/-- `schedule_manager.apply_schedule_to_area` (schedule_manager.py 205-253):
apply the schedule to each thermostat of the area, returning the
per-thermostat results (`results.values()`). -/
def apply_schedule_to_area (env : Env) (area : HAArea) (sid : String) :
    List Bool × List DeviceCommand :=
  let pairs := area.thermostats.map (fun th => apply_schedule_to_thermostat env th sid)
  (pairs.map Prod.fst, (pairs.map Prod.snd).flatten)

/-- One loop iteration of `_apply_default_mode`/`_apply_eco_mode`
(mode_manager.py 211-224 / 395-408): `continue` on a disabled area, else the
area's HVAC result followed by the per-thermostat schedule results. -/
def scheduleModeArea (env : Env) (sid : String) (area : HAArea) :
    List Bool × List DeviceCommand :=
  if area.enabled then
    ((set_area_hvac_mode env area "auto").1 :: (apply_schedule_to_area env area sid).1,
     (set_area_hvac_mode env area "auto").2 ++ (apply_schedule_to_area env area sid).2)
  else ([], [])

/-- Shared body of `_apply_default_mode` and `_apply_eco_mode`
(mode_manager.py 199-226 and 383-410, textually identical up to the schedule
id): fail fast when the schedule does not exist, else per ENABLED area set
HVAC auto and apply the schedule; skipped (disabled) areas contribute
nothing; result `all(results) if results else True`. -/
def applyScheduleModeCore (env : Env) (sid : String) : Bool × List DeviceCommand :=
  if (get_schedule env sid).isNone then (false, [])
  else
    (((env.areas.map (scheduleModeArea env sid)).map Prod.fst).flatten.all id,
     ((env.areas.map (scheduleModeArea env sid)).map Prod.snd).flatten)

/-- `ModeManager._apply_default_mode` (mode_manager.py 199-226). -/
def _apply_default_mode (env : Env) : Bool × List DeviceCommand :=
  applyScheduleModeCore env "default"

/-- `ModeManager._apply_eco_mode` (mode_manager.py 383-410). -/
def _apply_eco_mode (env : Env) : Bool × List DeviceCommand :=
  applyScheduleModeCore env "eco"

/-- `ModeManager._apply_manual_mode` (mode_manager.py 439-455): every
thermostat of every area (enabled or not) to "heat". -/
def _apply_manual_mode (env : Env) : Bool × List DeviceCommand :=
  let cmds := (allThermostats env).map (fun t => DeviceCommand.setHvac t "heat")
  (cmds.all env.cmdOk, cmds)

/-- `ModeManager._apply_off_mode` (mode_manager.py 457-472): every thermostat
of every area (enabled or not) to "off". -/
def _apply_off_mode (env : Env) : Bool × List DeviceCommand :=
  let cmds := (allThermostats env).map (fun t => DeviceCommand.setHvac t "off")
  (cmds.all env.cmdOk, cmds)

/-- `ModeManager._apply_ventilation_mode` (mode_manager.py 228-257): save the
previous mode, turn every thermostat (of every area) off, and when all off
commands succeeded arm the ventilation restore for now + duration targeting
the saved mode. -/
def _apply_ventilation_mode (env : Env) (s : MCState) (ventilation_time : Int)
    (now : Int) : MCState × Bool × List DeviceCommand :=
  let s1 := { s with saved_mode := some s.previous_mode }
  let cmds := (allThermostats env).map (fun t => DeviceCommand.setHvac t "off")
  let ok := cmds.all env.cmdOk
  let s2 := if ok then
      _schedule_ventilation_restore s1 (now + ventilation_time) s1.previous_mode now
    else s1
  (s2, ok, cmds)

/-- `ModeManager._apply_timer_mode` (mode_manager.py 412-437): record the
restore time, turn every thermostat (of every area) off, and when all
commands succeeded arm the timer restore. -/
def _apply_timer_mode (env : Env) (s : MCState) (restore_time : Int) (now : Int) :
    MCState × Bool × List DeviceCommand :=
  let s1 := { s with timer_restore_time := some restore_time }
  let cmds := (allThermostats env).map (fun t => DeviceCommand.setHvac t "off")
  let ok := cmds.all env.cmdOk
  let s2 := if ok then _schedule_timer_restore s1 restore_time now else s1
  (s2, ok, cmds)

/-- `datetime.now().replace(hour=0, ...) + timedelta(days=1)` with time in
minutes: the next local midnight after `now`. -/
def nextMidnight (now : Int) : Int :=
  (now.fdiv 1440 + 1) * 1440

/-- `ModeManager._apply_stay_home_mode` (mode_manager.py 295-381): fail fast
when the "default" schedule does not exist; else per ENABLED area set HVAC
auto and publish either the swapped ("stay_home_week") or the untouched
("default_week") plan — an area is active when `active_areas` is None or
contains its id; finally arm the midnight restore UNCONDITIONALLY (the
source arms before checking the results). -/
def stayHomeWeekTag (active_areas : Option (List String)) (area : HAArea) : String :=
  if active_areas = none ∨ area.area_id ∈ active_areas.getD []
    then "stay_home_week" else "default_week"

/-- One loop iteration of `_apply_stay_home_mode` (mode_manager.py 343-374):
`continue` on a disabled area, else HVAC auto for the area followed by a
schedule publish (swapped or default week, by the active-areas rule) to each
of its thermostats. -/
def stayHomeArea (env : Env) (active_areas : Option (List String)) (area : HAArea) :
    List Bool × List DeviceCommand :=
  if area.enabled then
    ((set_area_hvac_mode env area "auto").1 ::
       (area.thermostats.map
         (fun t => DeviceCommand.publishSchedule t (stayHomeWeekTag active_areas area))).map env.cmdOk,
     (set_area_hvac_mode env area "auto").2 ++
       area.thermostats.map
         (fun t => DeviceCommand.publishSchedule t (stayHomeWeekTag active_areas area)))
  else ([], [])

def _apply_stay_home_mode (env : Env) (s : MCState)
    (active_areas : Option (List String)) (now : Int) :
    MCState × Bool × List DeviceCommand :=
  if (get_schedule env "default").isNone then (s, false, [])
  else
    (_schedule_stay_home_restore s (nextMidnight now) now,
     ((env.areas.map (stayHomeArea env active_areas)).map Prod.fst).flatten.all id,
     ((env.areas.map (stayHomeArea env active_areas)).map Prod.snd).flatten)

/-- The keyword arguments `set_mode` reads from `**kwargs`. -/
structure Kwargs where
  restore_time : Option Int := none
  active_areas : Option (List String) := none
  ventilation_time : Option Int := none
deriving DecidableEq, Repr

/-- The entity the mode is persisted to (`mode_entity_id` default). -/
def modeEntityId : String := "input_select.heating_mode"

/-- `ModeManager.set_mode` (mode_manager.py 140-195), returning the new
manager state, the boolean result, and the trace of issued commands.

Mirrored structure: the not-force-and-already-set skip; the optimistic
`previous = current; current = mode` snapshot plus the shared
`system_state.system_mode = mode` write; the applier dispatch (with the
TIMER-without-restore_time branch returning False EARLY, before the
success/rollback epilogue — so no rollback happens there); on success the
best-effort `_sync_mode_to_ha` (its own failure ignored); on failure the
rollback of `current_mode` alone.

`dispatch_applier` is the `if mode == ... elif ...` ladder of lines 163-185:
`none` models the two `return False` statements inside it (missing
restore_time for TIMER, and the unreachable unknown-mode arm). -/
def dispatch_applier (env : Env) (s1 : MCState) (mode : SystemMode) (kw : Kwargs)
    (now : Int) : Option (MCState × Bool × List DeviceCommand) :=
  match mode with
  | .default => some (s1, _apply_default_mode env)
  | .stay_home => some (_apply_stay_home_mode env s1 kw.active_areas now)
  | .eco => some (s1, _apply_eco_mode env)
  | .timer =>
    match kw.restore_time with
    | none => none
    | some rt => some (_apply_timer_mode env s1 rt now)
  | .ventilation =>
    some (_apply_ventilation_mode env s1 (kw.ventilation_time.getD 5) now)
  | .manual => some (s1, _apply_manual_mode env)
  | .off => some (s1, _apply_off_mode env)

/-- Lines 156-160 of `set_mode`: snapshot `previous = current`, optimistically
advance `current = mode`, and write the shared
`ha_client.system_state.system_mode = mode`. -/
def optimisticState (s : MCState) (mode : SystemMode) : MCState :=
  { s with previous_mode := s.current_mode
           current_mode := mode
           sys_state_mode := mode }

def set_mode_epilogue (mode : SystemMode) (sync_to_ha : Bool) (s1 : MCState)
    (applied : Option (MCState × Bool × List DeviceCommand)) :
    MCState × Bool × List DeviceCommand :=
  match applied with
  | none => (s1, false, [])
  | some (s2, ok, tr) =>
    if ok then
      (s2, true, tr ++ (if sync_to_ha then [DeviceCommand.selectOption modeEntityId mode] else []))
    else
      ({ s2 with current_mode := s2.previous_mode }, false, tr)

def set_mode (env : Env) (s : MCState) (mode : SystemMode) (force : Bool)
    (sync_to_ha : Bool) (kw : Kwargs) (now : Int) :
    MCState × Bool × List DeviceCommand :=
  if force = false ∧ mode = s.current_mode then (s, false, [])
  else
    set_mode_epilogue mode sync_to_ha (optimisticState s mode)
      (dispatch_applier env (optimisticState s mode) mode kw now)

/-- A task that runs to completion leaves the live set. -/
def completeTask (s : MCState) (id : Nat) : MCState :=
  { s with live_tasks := s.live_tasks.filter (fun p => p.1 ≠ id) }

/-- What one armed task does when the scheduler runs it (mode_manager.py:
`restore_after_ventilation`, `restore_at_midnight`, `restore_after_delay`).
The completed task leaves the live set; when its delay was positive:
the ventilation restore sets EVERY thermostat to auto and calls
`set_mode(restore_mode)` with NO check of the current mode; the stay-home
midnight restore calls `set_mode(DEFAULT)` only if the current mode is still
STAY_HOME; the timer restore calls `set_mode(DEFAULT)` unconditionally. -/
def fireTask (env : Env) (s : MCState) (id : Nat) (t : TimerTask) :
    MCState × List DeviceCommand :=
  let s0 := completeTask s id
  if t.restoreTime > t.armTime then
    match t.kind with
    | .ventilationRestore =>
      let autos := (allThermostats env).map (fun th => DeviceCommand.setHvac th "auto")
      let r := set_mode env s0 t.restoreMode false true {} t.restoreTime
      (r.1, autos ++ r.2.2)
    | .stayHomeRestore =>
      if s0.current_mode = .stay_home then
        let r := set_mode env s0 .default false true {} t.restoreTime
        (r.1, r.2.2)
      else (s0, [])
    | .timerRestore =>
      let r := set_mode env s0 .default false true {} t.restoreTime
      (r.1, r.2.2)
  else (s0, [])

/-! ## EventClient (`src/app/services/ha_websocket.py`) -/

/-- One entity object of a `get_states` response or a `state_changed` event:
the fields the cache dispatch reads (`entity_id` and the raw `state` value;
attributes do not influence which cache an entity lands in). -/
structure EntityIn where
  entity_id : String
  state : String
deriving DecidableEq, Repr

/-- The four per-kind caches of `SystemState` that
`_update_entity_state` writes (each a dict keyed by entity id; the stored
value abstracts the constructed state object by the raw state it was built
from).  New entries are consed; `List.lookup` finds the newest, matching
dict overwrite semantics. -/
structure SysCache where
  thermostats : List (String × String) := []
  temperature_sensors : List (String × String) := []
  humidity_sensors : List (String × String) := []
  input_selects : List (String × String) := []
deriving DecidableEq, Repr

/-- Character-list prefix test (kernel-reducible `str.startswith(pre)`). -/
def charsPrefix : List Char → List Char → Bool
  | [], _ => true
  | _ :: _, [] => false
  | a :: as, b :: bs => a = b && charsPrefix as bs

/-- Character-list infix test. -/
def charsInfix (needle : List Char) : List Char → Bool
  | [] => needle.isEmpty
  | b :: bs => charsPrefix needle (b :: bs) || charsInfix needle bs

/-- `entity_id.startswith(pre)`. -/
def pyStartsWith (s pre : String) : Bool :=
  charsPrefix pre.toList s.toList

/-- `sub in s.lower()`. -/
def pyLowerContains (s sub : String) : Bool :=
  charsInfix sub.toList (s.toList.map Char.toLower)

/-- `HomeAssistantWebSocket._update_entity_state` (ha_websocket.py 223-305):
dispatch by id prefix and, for sensors, by the "temp"/"humid" substring of
the lowercased id; an entity matching NO branch is written to no cache. -/
def _update_entity_state (c : SysCache) (e : EntityIn) : SysCache :=
  if pyStartsWith e.entity_id "climate." then
    { c with thermostats := (e.entity_id, e.state) :: c.thermostats }
  else if pyStartsWith e.entity_id "sensor." && pyLowerContains e.entity_id "temp" then
    { c with temperature_sensors := (e.entity_id, e.state) :: c.temperature_sensors }
  else if pyStartsWith e.entity_id "sensor." && pyLowerContains e.entity_id "humid" then
    { c with humidity_sensors := (e.entity_id, e.state) :: c.humidity_sensors }
  else if pyStartsWith e.entity_id "input_select." then
    { c with input_selects := (e.entity_id, e.state) :: c.input_selects }
  else c

/-- `HomeAssistantWebSocket._fetch_initial_states` (ha_websocket.py 122-149)
on a successful `get_states` response: update the cache from each result
entity whose id is in the monitored set, in response order. -/
def _fetch_initial_states (monitored : List String) (result : List EntityIn)
    (c : SysCache) : SysCache :=
  result.foldl (fun c e =>
    if e.entity_id ∈ monitored then _update_entity_state c e else c) c

/-- `connect()` success path warms the cache from the bulk fetch before
returning (ha_websocket.py 83-97): the cache a caller observes right after
a successful `connect()` starting from an empty cache. -/
def connectCache (monitored : List String) (result : List EntityIn) : SysCache :=
  _fetch_initial_states monitored result {}

/-- Does any of the four caches hold an entry for the entity? -/
def cacheHas (c : SysCache) (id : String) : Bool :=
  (c.thermostats.lookup id).isSome || (c.temperature_sensors.lookup id).isSome
    || (c.humidity_sensors.lookup id).isSome || (c.input_selects.lookup id).isSome

/-- The entity kinds `_update_entity_state` recognizes: exactly the ids that
land in some cache. -/
def recognizedEntityId (id : String) : Bool :=
  pyStartsWith id "climate."
    || (pyStartsWith id "sensor." && pyLowerContains id "temp")
    || (pyStartsWith id "sensor." && pyLowerContains id "humid")
    || pyStartsWith id "input_select."

/-- `HomeAssistantWebSocket._reconnect` (ha_websocket.py 184-198): the local
backoff starts at 1 and after each failed attempt becomes
`min(backoff * 2, 60)`.  `reconnectBackoff n` is the delay slept before the
(n+1)-th attempt of one reconnect loop; the variable is local to the loop,
so it resets to 1 only when a new loop starts after a successful connect. -/
def reconnectBackoff : Nat → Nat
  | 0 => 1
  | n + 1 => min (reconnectBackoff n * 2) 60

/-! ## Derived notions and concrete scenario instances -/

/-- The thermostats of the enabled areas (the only ones the spec says a mode
applier may touch). -/
def enabledThermostats (env : Env) : List String :=
  ((env.areas.filter (fun a => a.enabled)).map (fun a => a.thermostats)).flatten

/-- A small concrete environment: one enabled area with thermostats t1, t2
and one DISABLED area with thermostat t3; default and eco schedules present
and enabled; every device command succeeds. -/
def env1 : Env :=
  { areas := [⟨"living", ["t1", "t2"], true⟩, ⟨"cellar", ["t3"], false⟩]
    schedules := [("default", true), ("eco", true)]
    cmdOk := fun _ => true }

/-- Like `env1` but with no "eco" schedule configured. -/
def envNoEco : Env :=
  { areas := [⟨"living", ["t1", "t2"], true⟩]
    schedules := [("default", true)]
    cmdOk := fun _ => true }

/-- C1 scenario: the controller sits in DEFAULT mode. -/
def c1Start : MCState :=
  { initState with current_mode := .default, previous_mode := .default }

/-- C2 scenario, step 1: TIMER mode entered with a future restore time. -/
def c2AfterTimer : MCState × Bool × List DeviceCommand :=
  set_mode env1 initState .timer false true { restore_time := some 100 } 0

/-- C2 scenario, step 2: STAY_HOME entered while the timer restore is
armed. -/
def c2AfterStay : MCState × Bool × List DeviceCommand :=
  set_mode env1 c2AfterTimer.1 .stay_home false true {} 10

/-- C4 scenario: ECO, then VENTILATION (arming the 5-minute restore-to-eco at
time 15), then MANUAL at time 12 — a mode change while the ventilation
restore is still pending. -/
def c4AfterEco : MCState := (set_mode env1 initState .eco false true {} 0).1

def c4AfterVent : MCState := (set_mode env1 c4AfterEco .ventilation false true {} 10).1

def c4AfterManual : MCState := (set_mode env1 c4AfterVent .manual false true {} 12).1

/-- The task `c4AfterVent` armed (checked inside `C4_counterexample`). -/
def c4VentTask : TimerTask := ⟨.ventilationRestore, .eco, 15, 10⟩

/-- C4 witness scenario: an armed stay-home midnight task while the mode has
moved to MANUAL. -/
def c4wTask : TimerTask := ⟨.stayHomeRestore, .default, 20, 10⟩

def c4wState : MCState :=
  { initState with timer_task := some 0, live_tasks := [(0, c4wTask)], next_task_id := 1 }

/-- C7 witness scenario: the controller sits in ECO mode. -/
def c7Start : MCState := { initState with current_mode := .eco }

/-- C10 witness scenario: the controller sits in DEFAULT mode. -/
def c10Start : MCState := { initState with current_mode := .default }

/-! ## Helper lemmas -/

theorem mem_enabledThermostats {env : Env} {a : HAArea} {t : String}
    (ha : a ∈ env.areas) (he : a.enabled = true) (ht : t ∈ a.thermostats) :
    t ∈ enabledThermostats env := by
  simp only [enabledThermostats, List.mem_flatten, List.mem_map]
  exact ⟨a.thermostats, ⟨a, List.mem_filter.mpr ⟨ha, he⟩, rfl⟩, ht⟩

theorem mem_allThermostats {env : Env} {a : HAArea} {t : String}
    (ha : a ∈ env.areas) (ht : t ∈ a.thermostats) :
    t ∈ allThermostats env := by
  simp only [allThermostats, List.mem_dedup, List.mem_flatten, List.mem_map]
  exact ⟨a.thermostats, ⟨a, ha, rfl⟩, ht⟩

theorem apply_schedule_to_thermostat_target {env : Env} {th sid : String}
    {c : DeviceCommand} {t : String}
    (hc : c ∈ (apply_schedule_to_thermostat env th sid).2)
    (hct : cmdThermostat c = some t) : t = th := by
  unfold apply_schedule_to_thermostat at hc
  rcases h : get_schedule env sid with _ | en <;> simp only [h] at hc
  · simp at hc
  · by_cases hen : en = true
    · rw [if_pos hen] at hc
      rcases List.mem_cons.mp hc with rfl | hc2
      · simp only [cmdThermostat, Option.some.injEq] at hct; exact hct.symm
      · rcases List.mem_cons.mp hc2 with rfl | hc3
        · simp only [cmdThermostat, Option.some.injEq] at hct; exact hct.symm
        · simp at hc3
    · rw [if_neg hen] at hc; simp at hc

/-- `_schedule_*` helpers and `installTask`/`cancelHandle` never change the
mode fields. -/
theorem installTask_modes (s : MCState) (t : TimerTask) :
    (installTask s t).current_mode = s.current_mode ∧
    (installTask s t).previous_mode = s.previous_mode ∧
    (installTask s t).sys_state_mode = s.sys_state_mode := by
  simp [installTask]

theorem sched_vent_modes (s : MCState) (rt : Int) (rm : SystemMode) (now : Int) :
    (_schedule_ventilation_restore s rt rm now).current_mode = s.current_mode ∧
    (_schedule_ventilation_restore s rt rm now).previous_mode = s.previous_mode ∧
    (_schedule_ventilation_restore s rt rm now).sys_state_mode = s.sys_state_mode := by
  simp [_schedule_ventilation_restore, installTask, cancelHandle]

theorem sched_timer_modes (s : MCState) (rt now : Int) :
    (_schedule_timer_restore s rt now).current_mode = s.current_mode ∧
    (_schedule_timer_restore s rt now).previous_mode = s.previous_mode ∧
    (_schedule_timer_restore s rt now).sys_state_mode = s.sys_state_mode := by
  simp [_schedule_timer_restore, installTask, cancelHandle]

theorem sched_stay_modes (s : MCState) (rt now : Int) :
    (_schedule_stay_home_restore s rt now).current_mode = s.current_mode ∧
    (_schedule_stay_home_restore s rt now).previous_mode = s.previous_mode ∧
    (_schedule_stay_home_restore s rt now).sys_state_mode = s.sys_state_mode := by
  unfold _schedule_stay_home_restore
  split
  · exact ⟨rfl, rfl, rfl⟩
  · simp [installTask]

/-- The stateful appliers never change the mode fields (they only touch
`saved_mode`, `timer_restore_time` and the task bookkeeping). -/
theorem apply_vent_modes (env : Env) (s : MCState) (vt now : Int) :
    (_apply_ventilation_mode env s vt now).1.current_mode = s.current_mode ∧
    (_apply_ventilation_mode env s vt now).1.previous_mode = s.previous_mode ∧
    (_apply_ventilation_mode env s vt now).1.sys_state_mode = s.sys_state_mode := by
  unfold _apply_ventilation_mode
  dsimp only
  split
  · simp [_schedule_ventilation_restore, installTask, cancelHandle]
  · simp

theorem apply_timer_modes (env : Env) (s : MCState) (rt now : Int) :
    (_apply_timer_mode env s rt now).1.current_mode = s.current_mode ∧
    (_apply_timer_mode env s rt now).1.previous_mode = s.previous_mode ∧
    (_apply_timer_mode env s rt now).1.sys_state_mode = s.sys_state_mode := by
  unfold _apply_timer_mode
  dsimp only
  split
  · simp [_schedule_timer_restore, installTask, cancelHandle]
  · simp

theorem apply_stay_modes (env : Env) (s : MCState) (aa : Option (List String)) (now : Int) :
    (_apply_stay_home_mode env s aa now).1.current_mode = s.current_mode ∧
    (_apply_stay_home_mode env s aa now).1.previous_mode = s.previous_mode ∧
    (_apply_stay_home_mode env s aa now).1.sys_state_mode = s.sys_state_mode := by
  unfold _apply_stay_home_mode
  split
  · exact ⟨rfl, rfl, rfl⟩
  · exact sched_stay_modes s (nextMidnight now) now

/-- Whatever `dispatch_applier` returns keeps the mode fields of the state it
was given. -/
theorem dispatch_applier_modes {env : Env} {s1 : MCState} {mode : SystemMode}
    {kw : Kwargs} {now : Int} {s2 : MCState} {ok : Bool} {tr : List DeviceCommand}
    (h : dispatch_applier env s1 mode kw now = some (s2, ok, tr)) :
    s2.current_mode = s1.current_mode ∧ s2.previous_mode = s1.previous_mode ∧
    s2.sys_state_mode = s1.sys_state_mode := by
  cases mode <;> simp only [dispatch_applier] at h
  case default => obtain ⟨rfl, -⟩ := Prod.mk.injEq .. ▸ (Option.some.injEq .. ▸ h); exact ⟨rfl, rfl, rfl⟩
  case stay_home =>
    have h1 : s2 = (_apply_stay_home_mode env s1 kw.active_areas now).1 := by
      rw [Option.some.injEq] at h; exact congrArg Prod.fst h.symm
    rw [h1]; exact apply_stay_modes env s1 kw.active_areas now
  case eco => obtain ⟨rfl, -⟩ := Prod.mk.injEq .. ▸ (Option.some.injEq .. ▸ h); exact ⟨rfl, rfl, rfl⟩
  case timer =>
    rcases hrt : kw.restore_time with _ | rt <;> rw [hrt] at h
    · simp at h
    · simp only [Option.some.injEq] at h
      have h1 : s2 = (_apply_timer_mode env s1 rt now).1 := congrArg Prod.fst h.symm
      rw [h1]; exact apply_timer_modes env s1 rt now
  case ventilation =>
    simp only [Option.some.injEq] at h
    have h1 : s2 = (_apply_ventilation_mode env s1 (kw.ventilation_time.getD 5) now).1 :=
      congrArg Prod.fst h.symm
    rw [h1]; exact apply_vent_modes env s1 (kw.ventilation_time.getD 5) now
  case manual => obtain ⟨rfl, -⟩ := Prod.mk.injEq .. ▸ (Option.some.injEq .. ▸ h); exact ⟨rfl, rfl, rfl⟩
  case off => obtain ⟨rfl, -⟩ := Prod.mk.injEq .. ▸ (Option.some.injEq .. ▸ h); exact ⟨rfl, rfl, rfl⟩

theorem scheduleModeArea_target {env : Env} {sid : String} {area : HAArea}
    {c : DeviceCommand} {t : String}
    (hc : c ∈ (scheduleModeArea env sid area).2) (hct : cmdThermostat c = some t) :
    area.enabled = true ∧ t ∈ area.thermostats := by
  unfold scheduleModeArea at hc
  by_cases hen : area.enabled = true
  · rw [if_pos hen] at hc
    refine ⟨hen, ?_⟩
    rcases List.mem_append.mp hc with h1 | h2
    · unfold set_area_hvac_mode at h1
      simp only [List.mem_map] at h1
      obtain ⟨t1, ht1, rfl⟩ := h1
      simp only [cmdThermostat, Option.some.injEq] at hct
      exact hct ▸ ht1
    · unfold apply_schedule_to_area at h2
      simp only [List.map_map, List.mem_flatten, List.mem_map, Function.comp] at h2
      obtain ⟨l, ⟨th, hth, hl⟩, hcl⟩ := h2
      have hc2 : c ∈ (apply_schedule_to_thermostat env th sid).2 := hl ▸ hcl
      have ht : t = th := apply_schedule_to_thermostat_target hc2 hct
      exact ht ▸ hth
  · rw [if_neg hen] at hc; simp at hc

theorem stayHomeArea_target {env : Env} {aa : Option (List String)} {area : HAArea}
    {c : DeviceCommand} {t : String}
    (hc : c ∈ (stayHomeArea env aa area).2) (hct : cmdThermostat c = some t) :
    area.enabled = true ∧ t ∈ area.thermostats := by
  unfold stayHomeArea at hc
  by_cases hen : area.enabled = true
  · rw [if_pos hen] at hc
    refine ⟨hen, ?_⟩
    rcases List.mem_append.mp hc with h1 | h2
    · unfold set_area_hvac_mode at h1
      simp only [List.mem_map] at h1
      obtain ⟨t1, ht1, rfl⟩ := h1
      simp only [cmdThermostat, Option.some.injEq] at hct
      exact hct ▸ ht1
    · simp only [List.mem_map] at h2
      obtain ⟨t1, ht1, rfl⟩ := h2
      simp only [cmdThermostat, Option.some.injEq] at hct
      exact hct ▸ ht1
  · rw [if_neg hen] at hc; simp at hc

/-- Every command in a default/eco applier trace targets a thermostat of an
enabled area. -/
theorem core_trace_enabled (env : Env) (sid : String) :
    ∀ c ∈ (applyScheduleModeCore env sid).2, ∀ t, cmdThermostat c = some t →
      t ∈ enabledThermostats env := by
  intro c hc t hct
  unfold applyScheduleModeCore at hc
  split at hc
  · simp at hc
  · simp only [List.map_map, List.mem_flatten, List.mem_map, Function.comp] at hc
    obtain ⟨l, ⟨a, ha, hl⟩, hcl⟩ := hc
    have hc2 : c ∈ (scheduleModeArea env sid a).2 := hl ▸ hcl
    obtain ⟨hen, hmem⟩ := scheduleModeArea_target hc2 hct
    exact mem_enabledThermostats ha hen hmem

/-- Every command in the stay-home applier trace targets a thermostat of an
enabled area. -/
theorem stay_trace_enabled (env : Env) (s : MCState) (aa : Option (List String))
    (now : Int) :
    ∀ c ∈ (_apply_stay_home_mode env s aa now).2.2, ∀ t, cmdThermostat c = some t →
      t ∈ enabledThermostats env := by
  intro c hc t hct
  unfold _apply_stay_home_mode at hc
  split at hc
  · simp at hc
  · simp only [List.map_map, List.mem_flatten, List.mem_map, Function.comp] at hc
    obtain ⟨l, ⟨a, ha, hl⟩, hcl⟩ := hc
    have hc2 : c ∈ (stayHomeArea env aa a).2 := hl ▸ hcl
    obtain ⟨hen, hmem⟩ := stayHomeArea_target hc2 hct
    exact mem_enabledThermostats ha hen hmem

/-- On a successful `set_mode` call the committed current mode is the
requested one. -/
theorem set_mode_success_current (env : Env) (s : MCState) (mode : SystemMode)
    (force sync : Bool) (kw : Kwargs) (now : Int)
    (h : (set_mode env s mode force sync kw now).2.1 = true) :
    (set_mode env s mode force sync kw now).1.current_mode = mode := by
  unfold set_mode at h ⊢
  by_cases hskip : force = false ∧ mode = s.current_mode
  · rw [if_pos hskip] at h; simp at h
  · rw [if_neg hskip] at h ⊢
    rcases hd : dispatch_applier env (optimisticState s mode) mode kw now with _ | ⟨s2, ok, tr⟩ <;>
      rw [hd] at h
    · simp [set_mode_epilogue] at h
    · cases ok
      · simp [set_mode_epilogue] at h
      · simp only [set_mode_epilogue, if_pos]
        have hcur : (optimisticState s mode).current_mode = mode := rfl
        exact (dispatch_applier_modes hd).1.trans hcur

/-- On a failed `set_mode` call that went through the dispatch (any mode, any
kwargs, except the TIMER-without-restore_time early return), the current mode
is rolled back to the prior one while the shared cached
`system_state.system_mode` keeps the requested mode. -/
theorem set_mode_failure_rollback (env : Env) (s : MCState) (mode : SystemMode)
    (sync : Bool) (kw : Kwargs) (now : Int)
    (hneq : mode ≠ s.current_mode)
    (hdisp : ¬(mode = .timer ∧ kw.restore_time = none))
    (h : (set_mode env s mode false sync kw now).2.1 = false) :
    (set_mode env s mode false sync kw now).1.current_mode = s.current_mode ∧
    (set_mode env s mode false sync kw now).1.sys_state_mode = mode := by
  unfold set_mode at h ⊢
  rw [if_neg (by simp [hneq])] at h ⊢
  rcases hd : dispatch_applier env (optimisticState s mode) mode kw now with _ | ⟨s2, ok, tr⟩ <;>
    rw [hd] at h
  · exfalso
    apply hdisp
    cases mode <;> simp only [dispatch_applier] at hd <;>
      try exact absurd hd (by simp)
    rcases hrt : kw.restore_time with _ | rt
    · exact ⟨rfl, rfl⟩
    · rw [hrt] at hd; simp at hd
  · cases ok
    · obtain ⟨hc, hp, hsys⟩ := dispatch_applier_modes hd
      simp only [set_mode_epilogue, if_neg]
      constructor
      · simpa [optimisticState] using hp
      · simpa [optimisticState] using hsys
    · simp [set_mode_epilogue] at h

theorem lookup_cons_isSome {k v id : String} {l : List (String × String)}
    (h : (l.lookup id).isSome = true) : (((k, v) :: l).lookup id).isSome = true := by
  simp only [List.lookup]
  cases hbk : id == k
  · simpa using h
  · simp

/-- An entity of a recognized kind lands in some cache when processed. -/
theorem cacheHas_update_self {c : SysCache} {e : EntityIn}
    (hr : recognizedEntityId e.entity_id = true) :
    cacheHas (_update_entity_state c e) e.entity_id = true := by
  unfold recognizedEntityId at hr
  unfold _update_entity_state
  by_cases h1 : pyStartsWith e.entity_id "climate." = true
  · simp [h1, cacheHas, List.lookup]
  · by_cases h2 : (pyStartsWith e.entity_id "sensor." && pyLowerContains e.entity_id "temp") = true
    · simp [h1, h2, cacheHas, List.lookup]
    · by_cases h3 : (pyStartsWith e.entity_id "sensor." && pyLowerContains e.entity_id "humid") = true
      · simp [h1, h2, h3, cacheHas, List.lookup]
      · by_cases h4 : pyStartsWith e.entity_id "input_select." = true
        · simp [h1, h2, h3, h4, cacheHas, List.lookup]
        · exfalso
          rw [Bool.not_eq_true] at h1 h2 h3 h4
          rw [h1, h2, h3, h4] at hr
          simp at hr

/-- Once cached, an entity stays cached through any later update. -/
theorem cacheHas_update_mono (c : SysCache) (e : EntityIn) (id : String)
    (h : cacheHas c id = true) : cacheHas (_update_entity_state c e) id = true := by
  unfold _update_entity_state
  split_ifs <;>
    · simp only [cacheHas, Bool.or_eq_true] at h ⊢
      rcases h with ((h | h) | h) | h <;>
        first
          | exact Or.inl (Or.inl (Or.inl h))
          | exact Or.inl (Or.inl (Or.inl (lookup_cons_isSome h)))
          | exact Or.inl (Or.inl (Or.inr h))
          | exact Or.inl (Or.inl (Or.inr (lookup_cons_isSome h)))
          | exact Or.inl (Or.inr h)
          | exact Or.inl (Or.inr (lookup_cons_isSome h))
          | exact Or.inr h
          | exact Or.inr (lookup_cons_isSome h)

/-- Once cached, an entity stays cached through the rest of the bulk load. -/
theorem cacheHas_fetch_mono (monitored : List String) (result : List EntityIn)
    (c : SysCache) (id : String) (h : cacheHas c id = true) :
    cacheHas (_fetch_initial_states monitored result c) id = true := by
  induction result generalizing c with
  | nil => exact h
  | cons e rest ih =>
    have hstep : cacheHas (if e.entity_id ∈ monitored then _update_entity_state c e else c) id = true := by
      split
      · exact cacheHas_update_mono c e id h
      · exact h
    exact ih _ hstep

/-! ## Claims -/

/-- C1: the spec's rollback property says that after ANY failed `set_mode`
call — explicitly including TIMER requested without a `restore_time` — the
current mode equals the mode current immediately before the call.  The code
violates this: the TIMER branch returns False before the rollback epilogue,
so the optimistically advanced mode stays committed.  Evaluated here at the
failing input: from DEFAULT, `set_mode(TIMER)` with no restore time returns
False yet leaves `current_mode = TIMER` (and the shared cached
`system_state.system_mode = TIMER`), with no device command issued. -/
theorem C1_timer_failure_skips_rollback :
    (set_mode env1 c1Start .timer false true {} 5).2.1 = false ∧
    (set_mode env1 c1Start .timer false true {} 5).2.2 = [] ∧
    c1Start.current_mode = .default ∧
    (set_mode env1 c1Start .timer false true {} 5).1.current_mode = .timer ∧
    (set_mode env1 c1Start .timer false true {} 5).1.sys_state_mode = .timer := by
  decide

/-- C2: the claim says every arming operation cancels an outstanding timer
task first (except the ventilation/stay-home precedence case).  The code
violates it: `_schedule_stay_home_restore` contains no `cancel()` call, so
after a successful TIMER arming followed by a successful STAY_HOME
transition, the old timer-restore task is still live next to the new
midnight task — two outstanding tasks, the first merely orphaned by
overwriting the handle. -/
theorem C2_stay_home_arming_leaves_two_live_tasks :
    c2AfterTimer.2.1 = true ∧
    c2AfterStay.2.1 = true ∧
    c2AfterStay.1.live_tasks.length = 2 ∧
    c2AfterStay.1.live_tasks.map (fun p => p.2.kind) =
      [.stayHomeRestore, .timerRestore] ∧
    c2AfterStay.1.timer_task = some 1 := by
  decide

/-- C3 counterexample: the claim says EVERY mode applier leaves disabled
zones untouched.  In `env1` the area "cellar" is disabled, yet entering OFF
mode issues `set_thermostat_mode("t3", "off")` to its thermostat, because
`_apply_off_mode` collects thermostats from ALL areas without an enabled
check. -/
theorem C3_counterexample :
    (⟨"cellar", ["t3"], false⟩ : HAArea) ∈ env1.areas ∧
    "t3" ∉ enabledThermostats env1 ∧
    DeviceCommand.setHvac "t3" "off" ∈ (set_mode env1 initState .off false true {} 0).2.2 := by
  decide

/-- C3 amended: only the default, eco and stay_home appliers restrict
themselves to enabled zones' thermostats; the off, manual, timer and
ventilation appliers issue a command to every thermostat of every area,
disabled areas included. -/
theorem C3_amended (env : Env) (s : MCState) (aa : Option (List String))
    (rt vt now : Int) :
    (∀ c ∈ (_apply_default_mode env).2, ∀ t, cmdThermostat c = some t →
       t ∈ enabledThermostats env) ∧
    (∀ c ∈ (_apply_eco_mode env).2, ∀ t, cmdThermostat c = some t →
       t ∈ enabledThermostats env) ∧
    (∀ c ∈ (_apply_stay_home_mode env s aa now).2.2, ∀ t, cmdThermostat c = some t →
       t ∈ enabledThermostats env) ∧
    (∀ a ∈ env.areas, ∀ t ∈ a.thermostats,
       DeviceCommand.setHvac t "off" ∈ (_apply_off_mode env).2 ∧
       DeviceCommand.setHvac t "heat" ∈ (_apply_manual_mode env).2 ∧
       DeviceCommand.setHvac t "off" ∈ (_apply_timer_mode env s rt now).2.2 ∧
       DeviceCommand.setHvac t "off" ∈ (_apply_ventilation_mode env s vt now).2.2) := by
  refine ⟨core_trace_enabled env "default", core_trace_enabled env "eco",
          stay_trace_enabled env s aa now, ?_⟩
  intro a ha t ht
  have hmem : t ∈ allThermostats env := mem_allThermostats ha ht
  refine ⟨?_, ?_, ?_, ?_⟩
  · exact List.mem_map.mpr ⟨t, hmem, rfl⟩
  · exact List.mem_map.mpr ⟨t, hmem, rfl⟩
  · simp only [_apply_timer_mode]
    exact List.mem_map.mpr ⟨t, hmem, rfl⟩
  · simp only [_apply_ventilation_mode]
    exact List.mem_map.mpr ⟨t, hmem, rfl⟩

/-- C3 witness: instantiating the amended frame property at `env1` and the
concrete auto command for t1 from the default applier's trace. -/
theorem C3_witness : "t1" ∈ enabledThermostats env1 :=
  (C3_amended env1 initState none 0 0 0).1
    (DeviceCommand.setHvac "t1" "auto") (by decide) "t1" (by decide)

/-- C4 counterexample: the claim says every deferred restore is a silent
no-op when the mode changed in the interim.  Run: ECO, then VENTILATION
(arming a restore-to-eco), then MANUAL while the restore is pending.  The
armed ventilation task is still live; when it fires it is NOT a no-op: it
issues thermostat commands and moves the system to ECO although the mode
that armed it (VENTILATION) is no longer current. -/
theorem C4_counterexample :
    (0, c4VentTask) ∈ c4AfterVent.live_tasks ∧
    c4AfterManual.current_mode = .manual ∧
    c4AfterManual.live_tasks = c4AfterVent.live_tasks ∧
    (fireTask env1 c4AfterManual 0 c4VentTask).1.current_mode = .eco ∧
    (fireTask env1 c4AfterManual 0 c4VentTask).2 ≠ [] := by
  decide

/-- C4 amended: only the stay-home midnight restore checks that the current
mode still equals the mode that armed it — firing it after the mode moved
away from STAY_HOME performs no mode change and issues no commands.  The
ventilation and timer restores perform no such check: once their delay was
positive they set every thermostat to auto (ventilation) and invoke
`set_mode` on their target unconditionally, whatever the current mode. -/
theorem C4_amended (env : Env) (s : MCState) (id : Nat) (t : TimerTask) :
    (t.kind = .stayHomeRestore → s.current_mode ≠ .stay_home →
       (fireTask env s id t).2 = [] ∧
       (fireTask env s id t).1.current_mode = s.current_mode ∧
       (fireTask env s id t).1.sys_state_mode = s.sys_state_mode) ∧
    (t.kind = .ventilationRestore → t.restoreTime > t.armTime →
       (fireTask env s id t).2 =
         (allThermostats env).map (fun th => DeviceCommand.setHvac th "auto") ++
           (set_mode env (completeTask s id) t.restoreMode false true {} t.restoreTime).2.2 ∧
       (fireTask env s id t).1 =
         (set_mode env (completeTask s id) t.restoreMode false true {} t.restoreTime).1) ∧
    (t.kind = .timerRestore → t.restoreTime > t.armTime →
       (fireTask env s id t).1 =
         (set_mode env (completeTask s id) .default false true {} t.restoreTime).1) := by
  refine ⟨?_, ?_, ?_⟩
  · intro hk hm
    unfold fireTask
    rw [hk]
    dsimp only
    split
    · rw [if_neg (show ¬(completeTask s id).current_mode = SystemMode.stay_home from hm)]
      exact ⟨rfl, rfl, rfl⟩
    · exact ⟨rfl, rfl, rfl⟩
  · intro hk hf
    unfold fireTask
    rw [hk]
    dsimp only
    rw [if_pos hf]
    exact ⟨rfl, rfl⟩
  · intro hk hf
    unfold fireTask
    rw [hk]
    dsimp only
    rw [if_pos hf]

/-- C4 witness: a stay-home midnight task fires after the mode moved to
MANUAL — no commands, mode untouched. -/
theorem C4_witness :
    (fireTask env1 c4wState 0 c4wTask).2 = [] ∧
    (fireTask env1 c4wState 0 c4wTask).1.current_mode = c4wState.current_mode ∧
    (fireTask env1 c4wState 0 c4wTask).1.sys_state_mode = c4wState.sys_state_mode :=
  (C4_amended env1 c4wState 0 c4wTask).1 (by decide) (by decide)

/-- C5: requesting the mode that is already current with `force=false` fails
immediately with no device command and no state change at all (current,
previous, saved mode, timer bookkeeping and the shared cached mode are all
untouched, since the returned state is the input state itself). -/
theorem C5_idempotent_noop (env : Env) (s : MCState) (mode : SystemMode)
    (sync : Bool) (kw : Kwargs) (now : Int) (h : mode = s.current_mode) :
    set_mode env s mode false sync kw now = (s, false, []) := by
  unfold set_mode
  rw [if_pos ⟨rfl, h⟩]

/-- C5 witness: the initial state is in MANUAL; requesting MANUAL again
returns failure, zero commands, and the very same state. -/
theorem C5_witness : set_mode env1 initState .manual false true {} 0 = (initState, false, []) :=
  C5_idempotent_noop env1 initState .manual true {} 0 rfl

/-- C6: the claim says `set_mode` returns a boolean for every member of the
`SystemMode` enum and never raises.  The enum in state.py has no member
named `ECO` (its away mode is `HOLIDAY`), while the dispatch in
`mode_manager.set_mode` compares against `SystemMode.ECO`.  Evaluating that
dispatch chain on the actual member values: the first two members work, and
every other member — including HOLIDAY itself — hits the `AttributeError`
before reaching its applier.  The repo's own test
(`test_changes.py::test_eco_mode_exists`) requires `ECO` to exist and
`HOLIDAY` to be gone, so state.py is the stale side of the rename. -/
theorem C6_eco_attribute_error :
    enumGetattr "ECO" = none ∧
    enumGetattr "HOLIDAY" = some "holiday" ∧
    set_mode_dispatch_literal "default" = .ok "_apply_default_mode" ∧
    set_mode_dispatch_literal "stay_home" = .ok "_apply_stay_home_mode" ∧
    set_mode_dispatch_literal "holiday" = .error "AttributeError: ECO" ∧
    set_mode_dispatch_literal "timer" = .error "AttributeError: ECO" ∧
    set_mode_dispatch_literal "ventilation" = .error "AttributeError: ECO" ∧
    set_mode_dispatch_literal "manual" = .error "AttributeError: ECO" ∧
    set_mode_dispatch_literal "off" = .error "AttributeError: ECO" :=
  ⟨rfl, rfl, rfl, rfl, rfl, rfl, rfl, rfl, rfl⟩

/-- C7: entering VENTILATION from any mode M (with all off commands
succeeding) arms the restore task with target M — the mode current
immediately before entry, not DEFAULT — and firing that task with no
intervening mode change (and the restore transition succeeding) brings the
system back to M. -/
theorem C7_ventilation_restore_target (env : Env) (s : MCState) (M : SystemMode)
    (vt now : Int) (hM : s.current_mode = M) (hMv : M ≠ .ventilation) (hvt : 0 < vt)
    (hoff : ∀ t ∈ allThermostats env, env.cmdOk (.setHvac t "off") = true)
    (hrestore :
      (set_mode env
        (completeTask (set_mode env s .ventilation false true { ventilation_time := some vt } now).1
          s.next_task_id)
        M false true {} (now + vt)).2.1 = true) :
    (set_mode env s .ventilation false true { ventilation_time := some vt } now).2.1 = true ∧
    (set_mode env s .ventilation false true { ventilation_time := some vt } now).1.timer_task
      = some s.next_task_id ∧
    (s.next_task_id, (⟨.ventilationRestore, M, now + vt, now⟩ : TimerTask)) ∈
      (set_mode env s .ventilation false true { ventilation_time := some vt } now).1.live_tasks ∧
    (fireTask env (set_mode env s .ventilation false true { ventilation_time := some vt } now).1
        s.next_task_id ⟨.ventilationRestore, M, now + vt, now⟩).1.current_mode = M := by
  have hvm : SystemMode.ventilation ≠ s.current_mode := by
    rw [hM]; exact fun hx => hMv hx.symm
  have hif : ¬(false = false ∧ SystemMode.ventilation = s.current_mode) := by
    rintro ⟨-, hx⟩; exact hvm hx
  have hall : ((allThermostats env).map (fun t => DeviceCommand.setHvac t "off")).all env.cmdOk = true := by
    rw [List.all_eq_true]
    intro c hc
    rw [List.mem_map] at hc
    obtain ⟨t, ht, rfl⟩ := hc
    exact hoff t ht
  have hr : set_mode env s .ventilation false true { ventilation_time := some vt } now
      = (_schedule_ventilation_restore
           { optimisticState s .ventilation with
               saved_mode := some (optimisticState s .ventilation).previous_mode }
           (now + vt) (optimisticState s .ventilation).previous_mode now,
         true,
         ((allThermostats env).map (fun t => DeviceCommand.setHvac t "off")) ++
           [DeviceCommand.selectOption modeEntityId .ventilation]) := by
    unfold set_mode
    rw [if_neg hif]
    unfold dispatch_applier set_mode_epilogue _apply_ventilation_mode
    simp only [Option.getD, hall, if_true]
  have hprev : (optimisticState s .ventilation).previous_mode = M := hM
  rw [hr, hprev]
  refine ⟨rfl, rfl, ?_, ?_⟩
  · exact List.mem_cons_self _ _
  · unfold fireTask
    rw [if_pos (by simp only; omega)]
    have hfire := hrestore
    rw [hr, hprev] at hfire
    exact set_mode_success_current env _ M false true {} (now + vt) hfire

/-- C7 witness: from ECO, a 5-minute ventilation arms a restore-to-eco task
and firing it returns the system to ECO. -/
theorem C7_witness :
    (set_mode env1 c7Start .ventilation false true { ventilation_time := some 5 } 0).2.1 = true ∧
    (set_mode env1 c7Start .ventilation false true { ventilation_time := some 5 } 0).1.timer_task
      = some c7Start.next_task_id ∧
    (c7Start.next_task_id, (⟨.ventilationRestore, .eco, 0 + 5, 0⟩ : TimerTask)) ∈
      (set_mode env1 c7Start .ventilation false true { ventilation_time := some 5 } 0).1.live_tasks ∧
    (fireTask env1 (set_mode env1 c7Start .ventilation false true { ventilation_time := some 5 } 0).1
        c7Start.next_task_id ⟨.ventilationRestore, .eco, 0 + 5, 0⟩).1.current_mode = .eco :=
  C7_ventilation_restore_target env1 c7Start .eco 5 0 rfl (by decide) (by decide)
    (by decide) (by decide)

/-- C8 counterexample: the claim says the warmed cache holds an entry for
every monitored entity of the bulk response REGARDLESS of id prefix or
measurement kind.  A monitored pressure sensor present in the response
matches none of the four dispatch branches and lands in no cache. -/
theorem C8_counterexample :
    "sensor.office_pressure" ∈ (["sensor.office_pressure"] : List String) ∧
    (⟨"sensor.office_pressure", "1013"⟩ : EntityIn) ∈
      ([⟨"sensor.office_pressure", "1013"⟩] : List EntityIn) ∧
    cacheHas (connectCache ["sensor.office_pressure"] [⟨"sensor.office_pressure", "1013"⟩])
      "sensor.office_pressure" = false := by
  decide

/-- C8 amended: after the bulk fetch, the cache holds an entry for every
monitored entity of the response whose id is of a RECOGNIZED kind — prefix
climate. or input_select., or prefix sensor. with "temp" or "humid" in the
lowercased id; other monitored entities are dropped. -/
theorem C8_amended (monitored : List String) (result : List EntityIn)
    (c : SysCache) (e : EntityIn) (he : e ∈ result) (hm : e.entity_id ∈ monitored)
    (hr : recognizedEntityId e.entity_id = true) :
    cacheHas (_fetch_initial_states monitored result c) e.entity_id = true := by
  induction result generalizing c with
  | nil => simp at he
  | cons x rest ih =>
    rcases List.mem_cons.mp he with rfl | hrest
    · have h1 : cacheHas (if e.entity_id ∈ monitored then _update_entity_state c e else c)
          e.entity_id = true := by
        rw [if_pos hm]
        exact cacheHas_update_self hr
      exact cacheHas_fetch_mono monitored rest _ _ h1
    · exact ih _ hrest

/-- C8 witness: a monitored thermostat entity from the bulk response is
present in the warmed cache. -/
theorem C8_witness :
    cacheHas (_fetch_initial_states ["climate.office"] [⟨"climate.office", "heat"⟩] {})
      "climate.office" = true :=
  C8_amended ["climate.office"] [⟨"climate.office", "heat"⟩] {} ⟨"climate.office", "heat"⟩
    (by decide) (by decide) (by decide)

/-- C9: the reconnect delay before the (n+1)-th consecutive failed attempt
is exactly min(2^n, 60): it starts at 1, doubles after each failure, never
exceeds the 60 cap, never decreases within one loop (the variable is local
to `_reconnect`, so it returns to 1 only when a successful connect ends the
loop and a later disconnect starts a fresh one), and its first eight values
are 1, 2, 4, 8, 16, 32, 60, 60. -/
theorem C9_reconnect_backoff :
    (∀ n, reconnectBackoff n = min (2 ^ n) 60) ∧
    (∀ n, reconnectBackoff n ≤ 60) ∧
    (∀ n, reconnectBackoff n ≤ reconnectBackoff (n + 1)) ∧
    (List.range 8).map reconnectBackoff = [1, 2, 4, 8, 16, 32, 60, 60] := by
  have hc : ∀ n, reconnectBackoff n = min (2 ^ n) 60 := by
    intro n
    induction n with
    | zero => rfl
    | succ n ih => rw [reconnectBackoff, ih, pow_succ]; omega
  refine ⟨hc, ?_, ?_, by decide⟩
  · intro n; rw [hc]; omega
  · intro n
    rw [hc n, hc (n + 1), pow_succ]
    omega

/-- C10: when `set_mode` fails through an applier failure (requested mode
differs from the current one, a restore time is present when TIMER is
requested, and the call returns False), the shared cached
`system_state.system_mode` keeps the requested mode — it was written before
the applier ran and is not restored — while `current_mode` is rolled back,
so the two fields diverge. -/
theorem C10_failed_transition_cache_divergence (env : Env) (s : MCState)
    (mode : SystemMode) (sync : Bool) (kw : Kwargs) (now : Int)
    (h1 : mode ≠ s.current_mode)
    (h2 : ¬(mode = .timer ∧ kw.restore_time = none))
    (h3 : (set_mode env s mode false sync kw now).2.1 = false) :
    (set_mode env s mode false sync kw now).1.sys_state_mode = mode ∧
    (set_mode env s mode false sync kw now).1.current_mode = s.current_mode ∧
    (set_mode env s mode false sync kw now).1.sys_state_mode ≠
      (set_mode env s mode false sync kw now).1.current_mode := by
  obtain ⟨hcur, hsys⟩ := set_mode_failure_rollback env s mode sync kw now h1 h2 h3
  exact ⟨hsys, hcur, by rw [hsys, hcur]; exact h1⟩

/-- C10 witness: requesting ECO from DEFAULT with no eco schedule configured
fails, rolls `current_mode` back to DEFAULT, and leaves the shared cached
mode stuck at ECO. -/
theorem C10_witness :
    (set_mode envNoEco c10Start .eco false true {} 0).1.sys_state_mode = .eco ∧
    (set_mode envNoEco c10Start .eco false true {} 0).1.current_mode = c10Start.current_mode ∧
    (set_mode envNoEco c10Start .eco false true {} 0).1.sys_state_mode ≠
      (set_mode envNoEco c10Start .eco false true {} 0).1.current_mode :=
  C10_failed_transition_cache_divergence envNoEco c10Start .eco true {} 0
    (by decide) (by decide) (by decide)


end HeatingController
